import Mathlib

/-!
# Signaling and negotiation core of the video-call room

A shallow embedding of `src/pages/room/[roomId].js` (the `Room` component) and of
`src/pages/api/pusher/auth.js` (the authorization endpoint).

The component keeps its session in React refs and state.  Here they are the fields of
`Room`.  Every call the component makes on an external collaborator (the browser's
`RTCPeerConnection`, media tracks, the relay client, `fetch`) is recorded as an `Effect`,
in call order.  Every `await` of the source suspends the handler: the suspended
continuation is a `Pending` entry of `Room.tasks`, and `settle` resumes it when the
environment resolves or rejects the awaited promise.

Conventions:
* a React state setter is an assignment to the field of `Room`; the event loop (`Room.step`)
  undoes these assignments for a component that is no longer mounted, as React drops the
  setter calls of an unmounted component;
* objects the component only holds (tracks, transport sessions, relay client, channel) carry
  the little state its calls put on them: `stop()` marks a track stopped, `close()` marks a
  session closed, a description or a candidate is recorded on a session when the promise of
  `setLocalDescription` / `setRemoteDescription` / `addIceCandidate` resolves;
* whether a promise resolves or rejects is the choice of the environment.
-/

namespace VideoCall

/-! ## Data model -/

abbrev ParticipantId := String
abbrev SessionDescription := String
abbrev IceCandidate := String

inductive TrackKind
  | audio
  | video
deriving DecidableEq, Repr

/-- A browser media track: `enabled` is the flag the toggles write, `stopped` records that
`stop()` was called on it (its `readyState` is `ended`). -/
structure MediaStreamTrack where
  id : Nat
  kind : TrackKind
  enabled : Bool
  stopped : Bool
deriving DecidableEq, Repr

structure MediaStream where
  id : Nat
  tracks : List MediaStreamTrack
deriving DecidableEq, Repr

/-- A video element of the page; `srcObject` holds the id of the attached stream. -/
structure VideoElement where
  srcObject : Option Nat
deriving DecidableEq, Repr

/-- The transport session object.  `senders` are the ids of the tracks given to `addTrack`;
the descriptions and `candidates` are those the transport has accepted (the awaited promise
resolved); `closed` records that `close()` was called. -/
structure RTCPeerConnection where
  closed : Bool
  senders : List Nat
  localDescription : Option SessionDescription
  remoteDescription : Option SessionDescription
  candidates : List IceCandidate
deriving DecidableEq, Repr

/-- The relay client created by `new Pusher(...)`. -/
structure PusherClient where
  connected : Bool
deriving DecidableEq, Repr

/-- The channel object returned by `subscribe`, with the event names bound on it. -/
structure Channel where
  name : String
  subscribed : Bool
  bound : List String
deriving DecidableEq, Repr

/-- A signaling message as published through the relay: the event with its payload and the
`senderId` field (`none` is JavaScript `null`, the value of `userIdRef` before the effect
ran). -/
inductive SignalingMessage
  | userJoined (senderId : Option ParticipantId)
  | offer (offer : SessionDescription) (senderId : Option ParticipantId)
  | answer (answer : SessionDescription) (senderId : Option ParticipantId)
  | iceCandidate (candidate : IceCandidate) (senderId : Option ParticipantId)
deriving DecidableEq, Repr

def SignalingMessage.senderId : SignalingMessage → Option ParticipantId
  | .userJoined s => s
  | .offer _ s => s
  | .answer _ s => s
  | .iceCandidate _ s => s

def SignalingMessage.event : SignalingMessage → String
  | .userJoined _ => "user-joined"
  | .offer _ _ => "offer"
  | .answer _ _ => "answer"
  | .iceCandidate _ _ => "ice-candidate"

/-- A call made by the component on an external collaborator. -/
inductive Effect
  | fetchTrigger (channel : String) (message : SignalingMessage)
  | getUserMedia
  | pcNew (pc : Nat)
  | pcAddTrack (pc : Nat) (track : Nat)
  | pcCreateOffer (pc : Nat)
  | pcCreateAnswer (pc : Nat)
  | pcSetLocalDescription (pc : Nat) (description : SessionDescription)
  | pcSetRemoteDescription (pc : Nat) (description : SessionDescription)
  | pcAddIceCandidate (pc : Nat) (candidate : IceCandidate)
  | pcClose (pc : Nat)
  | trackStop (track : Nat)
  | pusherNew
  | pusherSubscribe (channel : String)
  | channelBind (event : String)
  | channelUnbindAll
  | channelUnsubscribe
  | pusherDisconnect
  | routerPush (path : String)
  | consoleError (message : String)
deriving DecidableEq, Repr

/-- A suspended continuation: the handler that awaits, and the promise it awaits. -/
inductive Pending
  /-- Source `initMedia` awaiting `getUserMedia`; `initPusher` is chained on it by `.then`. -/
  | getUserMedia
  /-- Source `triggerEvent` awaiting `fetch`. -/
  | fetch
  /-- Source `startCall` awaiting `createOffer()` of session `pc`. -/
  | callCreateOffer (pc : Nat)
  /-- Source `startCall` awaiting `setLocalDescription(offer)` of session `pc`. -/
  | callSetLocal (pc : Nat) (offer : SessionDescription)
  /-- Source `handleOffer` awaiting `setRemoteDescription(offer)` of session `pc`. -/
  | offerSetRemote (pc : Nat) (offer : SessionDescription)
  /-- Source `handleOffer` awaiting `createAnswer()` of session `pc`. -/
  | offerCreateAnswer (pc : Nat)
  /-- Source `handleOffer` awaiting `setLocalDescription(answer)` of session `pc`. -/
  | offerSetLocal (pc : Nat) (answer : SessionDescription)
  /-- Source `handleAnswer` awaiting `setRemoteDescription(answer)` of session `pc`. -/
  | answerSetRemote (pc : Nat) (answer : SessionDescription)
  /-- Source `handleIceCandidate` awaiting `addIceCandidate(candidate)` of session `pc`. -/
  | iceAdd (pc : Nat) (candidate : IceCandidate)
deriving DecidableEq, Repr

/-- How the environment settles an awaited promise. -/
inductive Outcome
  | rejected
  /-- Resolved with a value the continuation does not use. -/
  | resolved
  /-- Resolved by `createOffer` / `createAnswer` with a session description. -/
  | description (d : SessionDescription)
  /-- Resolved by `getUserMedia` with a stream. -/
  | stream (st : MediaStream)
deriving DecidableEq, Repr

/-- The refs and the React state of the `Room` component, the transport sessions created so
far (`pcs`, a session is named by its index) and the suspended continuations.  `mounted`
tells whether React still has the component mounted.  `orphanPushers` and `orphanChannels`
are the relay clients and channels that an earlier run of the effect created and that a
later `initPusher` pushed out of `pusherRef` and `channelRef`: no ref holds them, the
teardown does not reach them, and they go on delivering to the handlers bound on them. -/
structure Room where
  mounted : Bool
  roomId : Option String
  isConnected : Bool
  isMuted : Bool
  isVideoOff : Bool
  connectionStatus : String
  localVideoRef : Option VideoElement
  remoteVideoRef : Option VideoElement
  peerConnectionRef : Option Nat
  localStreamRef : Option MediaStream
  pusherRef : Option PusherClient
  channelRef : Option Channel
  userIdRef : Option ParticipantId
  pcs : List RTCPeerConnection
  tasks : List Pending
  orphanPushers : List PusherClient
  orphanChannels : List Channel
deriving DecidableEq, Repr

/-- The component right after its first render for room `roomId`: the `useState` and
`useRef` initial values, both video elements mounted. -/
def Room.init (roomId : Option String) : Room :=
  { mounted := true
    roomId := roomId
    isConnected := false
    isMuted := false
    isVideoOff := false
    connectionStatus := "Connecting..."
    localVideoRef := some ⟨none⟩
    remoteVideoRef := some ⟨none⟩
    peerConnectionRef := none
    localStreamRef := none
    pusherRef := none
    channelRef := none
    userIdRef := none
    pcs := []
    tasks := []
    orphanPushers := []
    orphanChannels := [] }

/-! ## The component's functions -/

/-- The template literal `private-room-${roomId}`. -/
def channelName (roomId : Option String) : String :=
  "private-room-" ++ roomId.getD "undefined"

/-- Source `triggerEvent`: the `fetch` to the relay publish endpoint is started at once, with
`senderId` read from `userIdRef` at the time of the call. -/
def triggerEvent (s : Room) (message : Option ParticipantId → SignalingMessage) :
    Room × List Effect :=
  ({ s with tasks := s.tasks ++ [Pending.fetch] },
   [Effect.fetchTrigger (channelName s.roomId) (message s.userIdRef)])

/-- Source `createPeerConnection`: a fresh session, with every track of the local stream
added to it.  Returns the state holding the new session, and its name. -/
def createPeerConnection (s : Room) : Room × Nat × List Effect :=
  let pc := s.pcs.length
  let tracks := match s.localStreamRef with
    | some st => st.tracks.map (fun t => t.id)
    | none => []
  ({ s with pcs := s.pcs ++ [{ closed := false, senders := tracks, localDescription := none,
                               remoteDescription := none, candidates := [] }] },
   pc,
   Effect.pcNew pc :: tracks.map (fun t => Effect.pcAddTrack pc t))

/-- Source `pc.onicecandidate`. -/
def onicecandidate (s : Room) (candidate : Option IceCandidate) : Room × List Effect :=
  match candidate with
  | some c => triggerEvent s (SignalingMessage.iceCandidate c)
  | none => (s, [])

/-- Source `pc.ontrack`; `streams` are the ids of `event.streams`. -/
def ontrack (s : Room) (streams : List Nat) : Room × List Effect :=
  match s.remoteVideoRef, streams.head? with
  | some _, some st =>
    ({ s with remoteVideoRef := some ⟨some st⟩, isConnected := true,
              connectionStatus := "Connected" }, [])
  | _, _ => (s, [])

/-- Source `pc.onconnectionstatechange`, for the value of `pc.connectionState`. -/
def onconnectionstatechange (s : Room) (connectionState : String) : Room × List Effect :=
  if connectionState = "connected" then
    ({ s with connectionStatus := "Connected", isConnected := true }, [])
  else if connectionState = "disconnected" ∨ connectionState = "failed" then
    ({ s with connectionStatus := "Disconnected", isConnected := false }, [])
  else if connectionState = "connecting" then
    ({ s with connectionStatus := "Connecting..." }, [])
  else (s, [])

/-- Source `handleOffer`, up to its first `await`. -/
def handleOffer (s : Room) (offer : SessionDescription) (senderId : Option ParticipantId) :
    Room × List Effect :=
  if senderId = s.userIdRef then (s, [])
  else
    let (s1, pc, e1) := createPeerConnection s
    ({ s1 with peerConnectionRef := some pc,
               tasks := s1.tasks ++ [Pending.offerSetRemote pc offer] },
     e1 ++ [Effect.pcSetRemoteDescription pc offer])

/-- Source `handleAnswer`, up to its `await`. -/
def handleAnswer (s : Room) (answer : SessionDescription) (senderId : Option ParticipantId) :
    Room × List Effect :=
  if senderId = s.userIdRef then (s, [])
  else
    match s.peerConnectionRef with
    | some pc =>
      ({ s with tasks := s.tasks ++ [Pending.answerSetRemote pc answer] },
       [Effect.pcSetRemoteDescription pc answer])
    | none => (s, [])

/-- Source `handleIceCandidate`, up to its `await`. -/
def handleIceCandidate (s : Room) (candidate : IceCandidate)
    (senderId : Option ParticipantId) : Room × List Effect :=
  if senderId = s.userIdRef then (s, [])
  else
    match s.peerConnectionRef with
    | some pc =>
      ({ s with tasks := s.tasks ++ [Pending.iceAdd pc candidate] },
       [Effect.pcAddIceCandidate pc candidate])
    | none => (s, [])

/-- Source `startCall`, up to its first `await`. -/
def startCall (s : Room) : Room × List Effect :=
  let (s1, pc, e1) := createPeerConnection s
  ({ s1 with peerConnectionRef := some pc,
             tasks := s1.tasks ++ [Pending.callCreateOffer pc] },
   e1 ++ [Effect.pcCreateOffer pc])

/-- The handler bound on `user-joined`. -/
def onUserJoined (s : Room) (senderId : Option ParticipantId) : Room × List Effect :=
  if senderId ≠ s.userIdRef then startCall s else (s, [])

/-- The handler bound on `pusher:subscription_succeeded`. -/
def onSubscriptionSucceeded (s : Room) : Room × List Effect :=
  triggerEvent s SignalingMessage.userJoined

/-- The event names bound by `initPusher`, in binding order. -/
def boundEvents : List String :=
  ["pusher:subscription_succeeded", "user-joined", "offer", "answer", "ice-candidate"]

/-- Source `initPusher`.  The two refs are overwritten: a client and a channel they held
before are released by nobody and become orphans. -/
def initPusher (s : Room) : Room × List Effect :=
  ({ s with pusherRef := some ⟨true⟩,
            channelRef := some ⟨channelName s.roomId, true, boundEvents⟩,
            orphanPushers := s.orphanPushers ++ s.pusherRef.toList,
            orphanChannels := s.orphanChannels ++ s.channelRef.toList },
   [Effect.pusherNew, Effect.pusherSubscribe (channelName s.roomId)]
     ++ boundEvents.map Effect.channelBind)

/-- The body of the `useEffect`, up to the `await` inside `initMedia`; `randomId` is the
string drawn by `Math.random().toString(36).substring(7)`. -/
def roomEffect (s : Room) (randomId : ParticipantId) : Room × List Effect :=
  if s.roomId = none ∨ s.roomId = some "" then (s, [])
  else
    ({ s with userIdRef := some randomId, tasks := s.tasks ++ [Pending.getUserMedia] },
     [Effect.getUserMedia])

/-- The function returned by the `useEffect`: the room teardown. -/
def cleanup (s : Room) : Room × List Effect :=
  let (s1, e1) : Room × List Effect := match s.localStreamRef with
    | some st =>
      ({ s with localStreamRef :=
                  some { st with tracks := st.tracks.map (fun t => { t with stopped := true }) } },
       st.tracks.map (fun t => Effect.trackStop t.id))
    | none => (s, [])
  let (s2, e2) : Room × List Effect := match s1.peerConnectionRef with
    | some pc =>
      ({ s1 with pcs := s1.pcs.modify (fun p => { p with closed := true }) pc },
       [Effect.pcClose pc])
    | none => (s1, [])
  let (s3, e3) : Room × List Effect := match s2.channelRef with
    | some ch =>
      ({ s2 with channelRef := some { ch with bound := [], subscribed := false } },
       [Effect.channelUnbindAll, Effect.channelUnsubscribe])
    | none => (s2, [])
  let (s4, e4) : Room × List Effect := match s3.pusherRef with
    | some _ => ({ s3 with pusherRef := some ⟨false⟩ }, [Effect.pusherDisconnect])
    | none => (s3, [])
  (s4, e1 ++ e2 ++ e3 ++ e4)

/-- The write `track.enabled = !track.enabled` on the first track of kind `k`
(`getAudioTracks()[0]` / `getVideoTracks()[0]`): the tracks after the write and the new
value of the flag, or `none` when the stream has no track of that kind. -/
def toggleFirst (k : TrackKind) : List MediaStreamTrack → Option (List MediaStreamTrack × Bool)
  | [] => none
  | t :: ts =>
    if t.kind = k then some ({ t with enabled := !t.enabled } :: ts, !t.enabled)
    else match toggleFirst k ts with
      | some (ts1, e) => some (t :: ts1, e)
      | none => none

/-- Source `toggleMute`. -/
def toggleMute (s : Room) : Room :=
  match s.localStreamRef with
  | some st =>
    match toggleFirst TrackKind.audio st.tracks with
    | some (tracks, enabled) =>
      { s with localStreamRef := some { st with tracks := tracks }, isMuted := !enabled }
    | none => s
  | none => s

/-- Source `toggleVideo`. -/
def toggleVideo (s : Room) : Room :=
  match s.localStreamRef with
  | some st =>
    match toggleFirst TrackKind.video st.tracks with
    | some (tracks, enabled) =>
      { s with localStreamRef := some { st with tracks := tracks }, isVideoOff := !enabled }
    | none => s
  | none => s

/-- Source `endCall`. -/
def endCall (s : Room) : Room × List Effect :=
  (s, [Effect.routerPush "/"])


/-! ## Resuming a suspended handler -/

/-- The continuation of `initMedia` after `getUserMedia` resolved. -/
def initMediaResolved (s : Room) (st : MediaStream) : Room :=
  { s with localStreamRef := some st,
           localVideoRef := match s.localVideoRef with
             | some _ => some ⟨some st.id⟩
             | none => none,
           connectionStatus := "Waiting for peer..." }

/-- The `catch` branch of `initMedia`. -/
def initMediaRejected (s : Room) : Room × List Effect :=
  ({ s with connectionStatus := "Camera/mic access denied" },
   [Effect.consoleError "Error accessing media devices:"])

/-- The transport accepted `setLocalDescription(d)` on session `pc`. -/
def acceptLocal (s : Room) (pc : Nat) (d : SessionDescription) : Room :=
  { s with pcs := s.pcs.modify (fun p => { p with localDescription := some d }) pc }

/-- The transport accepted `setRemoteDescription(d)` on session `pc`. -/
def acceptRemote (s : Room) (pc : Nat) (d : SessionDescription) : Room :=
  { s with pcs := s.pcs.modify (fun p => { p with remoteDescription := some d }) pc }

/-- The transport accepted `addIceCandidate(c)` on session `pc`. -/
def acceptCandidate (s : Room) (pc : Nat) (c : IceCandidate) : Room :=
  { s with pcs := s.pcs.modify (fun p => { p with candidates := p.candidates ++ [c] }) pc }

/-- A handler resumes and calls a method on `peerConnectionRef.current`, which it reads
again after the `await`; on a null ref the call throws and the handler ends. -/
def resumeOnCurrent (s : Room) (call : Nat → Effect) (next : Nat → Pending) :
    Room × List Effect :=
  match s.peerConnectionRef with
  | some pc => ({ s with tasks := s.tasks ++ [next pc] }, [call pc])
  | none => (s, [])

/-- The environment settles the promise awaited by the suspended continuation number `i`;
the continuation runs up to its next `await` or to its end.  A rejection that the source
does not catch ends the handler.  `none`: there is no such continuation, or the outcome is
not one this promise can have. -/
def settle (s : Room) (i : Nat) (o : Outcome) : Option (Room × List Effect) :=
  match s.tasks[i]? with
  | none => none
  | some t =>
    let s0 := { s with tasks := s.tasks.eraseIdx i }
    match t, o with
    | .getUserMedia, .stream st => some (initPusher (initMediaResolved s0 st))
    | .getUserMedia, .rejected =>
      let (s1, e1) := initMediaRejected s0
      let (s2, e2) := initPusher s1
      some (s2, e1 ++ e2)
    | .fetch, .resolved => some (s0, [])
    | .fetch, .rejected => some (s0, [Effect.consoleError "Failed to trigger event:"])
    | .callCreateOffer _, .description offer =>
      some (resumeOnCurrent s0 (fun pc => Effect.pcSetLocalDescription pc offer)
        (fun pc => Pending.callSetLocal pc offer))
    | .callCreateOffer _, .rejected => some (s0, [])
    | .callSetLocal pc offer, .resolved =>
      some (triggerEvent (acceptLocal s0 pc offer) (SignalingMessage.offer offer))
    | .callSetLocal _ _, .rejected => some (s0, [])
    | .offerSetRemote pc offer, .resolved =>
      some (resumeOnCurrent (acceptRemote s0 pc offer) Effect.pcCreateAnswer
        Pending.offerCreateAnswer)
    | .offerSetRemote _ _, .rejected => some (s0, [])
    | .offerCreateAnswer _, .description answer =>
      some (resumeOnCurrent s0 (fun pc => Effect.pcSetLocalDescription pc answer)
        (fun pc => Pending.offerSetLocal pc answer))
    | .offerCreateAnswer _, .rejected => some (s0, [])
    | .offerSetLocal pc answer, .resolved =>
      some (triggerEvent (acceptLocal s0 pc answer) (SignalingMessage.answer answer))
    | .offerSetLocal _ _, .rejected => some (s0, [])
    | .answerSetRemote pc answer, .resolved => some (acceptRemote s0 pc answer, [])
    | .answerSetRemote _ _, .rejected => some (s0, [])
    | .iceAdd pc c, .resolved => some (acceptCandidate s0 pc c, [])
    | .iceAdd _ _, .rejected => some (s0, [Effect.consoleError "Error adding ICE candidate:"])
    | _, _ => none

/-! ## The event loop -/

/-- Something that happens to a mounted `Room`. -/
inductive Event
  /-- The `useEffect` body runs, drawing `randomId`. -/
  | effect (randomId : ParticipantId)
  /-- The `useEffect` cleanup runs (before a re-run of the effect). -/
  | cleanup
  /-- The component unmounts. -/
  | unmount
  /-- An awaited promise settles. -/
  | settle (i : Nat) (o : Outcome)
  /-- The relay client reports `pusher:subscription_succeeded` on the channel held by
  `channelRef`. -/
  | subscriptionSucceeded
  /-- The relay client delivers a message on the channel held by `channelRef`. -/
  | message (m : SignalingMessage)
  /-- An orphaned relay client reports `pusher:subscription_succeeded` on its channel, the
  orphan channel number `i`. -/
  | orphanSubscriptionSucceeded (i : Nat)
  /-- An orphaned relay client delivers a message on its channel, the orphan channel number
  `i`. -/
  | orphanMessage (i : Nat) (m : SignalingMessage)
  /-- A transport session fires `icecandidate`. -/
  | icecandidate (candidate : Option IceCandidate)
  /-- A transport session fires `track`. -/
  | track (streams : List Nat)
  /-- A transport session fires `connectionstatechange`, being in `connectionState`. -/
  | connectionstatechange (connectionState : String)
  | toggleMute
  | toggleVideo
  | endCall
deriving DecidableEq, Repr

/-- The handler bound for a message, by its event name. -/
def onMessage (s : Room) : SignalingMessage → Room × List Effect
  | .userJoined senderId => onUserJoined s senderId
  | .offer offer senderId => handleOffer s offer senderId
  | .answer answer senderId => handleAnswer s answer senderId
  | .iceCandidate candidate senderId => handleIceCandidate s candidate senderId

/-- Whether the channel object `ch` has a handler bound on `event`. -/
def isBound (ch : Channel) (event : String) : Bool :=
  decide (event ∈ ch.bound)

/-- The channel object `ch` emits `pusher:subscription_succeeded`. -/
def emitSubscriptionSucceeded (s : Room) (ch : Channel) : Room × List Effect :=
  if isBound ch "pusher:subscription_succeeded" then onSubscriptionSucceeded s else (s, [])

/-- The channel object `ch` emits the message `m`: the handler bound on its event name, if
any, runs. -/
def emitMessage (s : Room) (ch : Channel) (m : SignalingMessage) : Room × List Effect :=
  if isBound ch m.event then onMessage s m else (s, [])

/-- React unmounts the component: it detaches the refs of the two video elements (their
`current` becomes null), then runs the `useEffect` cleanup. -/
def unmount (s : Room) : Room × List Effect :=
  cleanup { s with mounted := false, localVideoRef := none, remoteVideoRef := none }

/-- The code that an event runs.  An event on a channel that does not exist is not an event
of the component (`none`); on a null `channelRef` nothing is delivered. -/
def Room.handle (s : Room) : Event → Option (Room × List Effect)
  | .effect randomId => some (roomEffect s randomId)
  | .cleanup => some (cleanup s)
  | .unmount => some (unmount s)
  | .settle i o => settle s i o
  | .subscriptionSucceeded =>
    match s.channelRef with
    | some ch => some (emitSubscriptionSucceeded s ch)
    | none => some (s, [])
  | .message m =>
    match s.channelRef with
    | some ch => some (emitMessage s ch m)
    | none => some (s, [])
  | .orphanSubscriptionSucceeded i =>
    match s.orphanChannels[i]? with
    | some ch => some (emitSubscriptionSucceeded s ch)
    | none => none
  | .orphanMessage i m =>
    match s.orphanChannels[i]? with
    | some ch => some (emitMessage s ch m)
    | none => none
  | .icecandidate candidate => some (onicecandidate s candidate)
  | .track streams => some (ontrack s streams)
  | .connectionstatechange st => some (onconnectionstatechange s st)
  | .toggleMute => some (toggleMute s, [])
  | .toggleVideo => some (toggleVideo s, [])
  | .endCall => some (endCall s)

/-- React drops the state-setter calls of a component that is not mounted: when `s` is
unmounted, the React state after the turn is the one before it.  Writes to refs and calls
on collaborators are not React's and stay. -/
def dropSetters (s : Room) (r : Room × List Effect) : Room × List Effect :=
  if s.mounted then r
  else ({ r.1 with isConnected := s.isConnected, isMuted := s.isMuted,
                   isVideoOff := s.isVideoOff, connectionStatus := s.connectionStatus }, r.2)

/-- One turn of the event loop. -/
def Room.step (s : Room) (e : Event) : Option (Room × List Effect) :=
  match s.handle e with
  | some r => some (dropSetters s r)
  | none => none

/-- A run of the event loop, with all the calls made, in order. -/
def Room.run (s : Room) : List Event → Option (Room × List Effect)
  | [] => some (s, [])
  | e :: es =>
    match s.step e with
    | none => none
    | some (s1, e1) =>
      match s1.run es with
      | none => none
      | some (s2, e2) => some (s2, e1 ++ e2)

/-! ## The events that write the reported status -/

/-- The events that write `connectionStatus` or `isConnected`, and the two toggles: a
remote-track event, a transport connection-state change, the two outcomes of media
acquisition inside `initMedia`, `toggleMute` and `toggleVideo`. -/
inductive StatusEvent
  | track (streams : List Nat)
  | connectionstatechange (connectionState : String)
  | mediaResolved (st : MediaStream)
  | mediaRejected
  | toggleMute
  | toggleVideo
deriving DecidableEq, Repr

/-- The state after one such event. -/
def statusStep (s : Room) : StatusEvent → Room
  | .track streams => (ontrack s streams).1
  | .connectionstatechange connectionState => (onconnectionstatechange s connectionState).1
  | .mediaResolved st => initMediaResolved s st
  | .mediaRejected => (initMediaRejected s).1
  | .toggleMute => toggleMute s
  | .toggleVideo => toggleVideo s

/-- The state after a finite sequence of such events. -/
def statusRun (s : Room) : List StatusEvent → Room
  | [] => s
  | e :: es => statusRun (statusStep s e) es

/-! ## Two participants and the relay -/

inductive Who
  | a
  | b
deriving DecidableEq, Repr

/-- Modelled from the spec: the relay publish endpoint (`/api/pusher/trigger`) and the relay
service behind it are not part of the sources.  They are taken as the spec gives them: every
published message is delivered, in publishing order, to every current subscriber of the
channel, its sender included.  `queue` holds the messages published and not yet delivered,
`subscribers` the granted subscriptions; `aCalls` and `bCalls` are the calls each participant
has made. -/
structure World where
  a : Room
  b : Room
  subscribers : List (Who × String)
  queue : List (String × SignalingMessage)
  aCalls : List Effect
  bCalls : List Effect
deriving DecidableEq, Repr

/-- Two freshly rendered `Room` components on the same room identifier. -/
def World.init (roomId : Option String) : World :=
  { a := Room.init roomId, b := Room.init roomId, subscribers := [], queue := [],
    aCalls := [], bCalls := [] }

def World.room (w : World) : Who → Room
  | .a => w.a
  | .b => w.b

/-- The messages handed to the relay publish endpoint among the calls `effs`. -/
def published : List Effect → List (String × SignalingMessage)
  | [] => []
  | Effect.fetchTrigger channel m :: es => (channel, m) :: published es
  | _ :: es => published es

/-- A participant has taken a turn: its new state, its calls, and what it published. -/
def World.record (w : World) (who : Who) (r : Room × List Effect) : World :=
  match who with
  | .a => { w with a := r.1, aCalls := w.aCalls ++ r.2, queue := w.queue ++ published r.2 }
  | .b => { w with b := r.1, bCalls := w.bCalls ++ r.2, queue := w.queue ++ published r.2 }

/-- Every relay client of `who` delivers `m` on its channel: the orphaned ones, oldest
first, then the one held by the refs. -/
def World.deliverTo (w : World) (m : SignalingMessage) (who : Who) : World :=
  (((List.range (w.room who).orphanChannels.length).map (fun i => Event.orphanMessage i m))
      ++ [Event.message m]).foldl
    (fun w1 e =>
      match (w1.room who).step e with
      | some r => w1.record who r
      | none => w1)
    w

inductive WorldEvent
  /-- Something local happens at a participant (anything but a relay delivery). -/
  | room (who : Who) (e : Event)
  /-- The relay grants the subscription `who` asked for and reports its success. -/
  | granted (who : Who)
  /-- The relay delivers the oldest undelivered message to every current subscriber. -/
  | deliver
deriving DecidableEq, Repr

def World.step (w : World) : WorldEvent → Option World
  | .room _ (.message _) => none
  | .room _ (.orphanMessage _ _) => none
  | .room _ .subscriptionSucceeded => none
  | .room who e =>
    match (w.room who).step e with
    | some r => some (w.record who r)
    | none => none
  | .granted who =>
    match (w.room who).channelRef with
    | some ch =>
      if ch.subscribed then
        match (w.room who).step Event.subscriptionSucceeded with
        | some r =>
          some { w.record who r with subscribers := w.subscribers ++ [(who, ch.name)] }
        | none => none
      else none
    | none => none
  | .deliver =>
    match w.queue with
    | [] => none
    | (channel, m) :: rest =>
      some (((w.subscribers.filter (fun p => p.2 = channel)).map (fun p => p.1)).foldl
        (fun w1 who => w1.deliverTo m who) { w with queue := rest })

def World.run (w : World) : List WorldEvent → Option World
  | [] => some w
  | e :: es =>
    match w.step e with
    | some w1 => w1.run es
    | none => none

/-- The schedule of a two-party call: A enters the room, then B; the transport resolves
every promise (`offer` and `answer` are the descriptions it generates) and the relay delivers
every published message. -/
def twoPartySchedule (idA idB : ParticipantId) (streamA streamB : MediaStream)
    (offer answer : SessionDescription) : List WorldEvent :=
  [ .room .a (.effect idA), .room .a (.settle 0 (.stream streamA)), .granted .a,
    .room .a (.settle 0 .resolved), .deliver,
    .room .b (.effect idB), .room .b (.settle 0 (.stream streamB)), .granted .b,
    .room .b (.settle 0 .resolved), .deliver,
    .room .a (.settle 0 (.description offer)), .room .a (.settle 0 .resolved),
    .room .a (.settle 0 .resolved), .deliver,
    .room .b (.settle 0 .resolved), .room .b (.settle 0 (.description answer)),
    .room .b (.settle 0 .resolved), .room .b (.settle 0 .resolved), .deliver,
    .room .a (.settle 0 .resolved) ]

end VideoCall

/-! ## The authorization endpoint (`src/pages/api/pusher/auth.js`) -/

namespace PusherAuth

/-- The body of the request as the framework parsed it: the two fields the handler reads,
each possibly `undefined`. -/
structure Body where
  socket_id : Option String
  channel_name : Option String
deriving DecidableEq, Repr

/-- The request: `body` is `none` when `req.body` is `null` or `undefined`. -/
structure Request where
  method : String
  body : Option Body
deriving DecidableEq, Repr

/-- What `res.status(code).json(...)` is given. -/
inductive Json
  | error (message : String)
  | credential (authResponse : String)
deriving DecidableEq, Repr

/-- What one invocation of the handler did: its calls of `pusher.authorizeChannel`, the
responses it sent, what it logged, and whether it ended by throwing. -/
structure Run where
  authorizerCalls : List (Option String × Option String)
  responses : List (Nat × Json)
  logged : List String
  threw : Bool
deriving DecidableEq, Repr

/-- Source `handler`.  `authorizeChannel` is the relay library's authorizer, which returns a
credential or throws. -/
def handler (authorizeChannel : Option String → Option String → Except String String)
    (req : Request) : Run :=
  if req.method ≠ "POST" then
    { authorizerCalls := [], responses := [(405, Json.error "Method not allowed")],
      logged := [], threw := false }
  else
    match req.body with
    | none => { authorizerCalls := [], responses := [], logged := [], threw := true }
    | some body =>
      match authorizeChannel body.socket_id body.channel_name with
      | .ok authResponse =>
        { authorizerCalls := [(body.socket_id, body.channel_name)],
          responses := [(200, Json.credential authResponse)], logged := [], threw := false }
      | .error _ =>
        { authorizerCalls := [(body.socket_id, body.channel_name)],
          responses := [(403, Json.error "Forbidden")], logged := ["Pusher auth error:"],
          threw := false }

end PusherAuth

namespace VideoCall

/-! ## Auxiliary facts -/

/-- A write to one element of a list is invisible through a projection the write
preserves. -/
theorem map_modify_preserved {α β : Type} (g : α → β) (f : α → α) (hf : ∀ p, g (f p) = g p)
    (l : List α) (n : Nat) : (l.modify f n).map g = l.map g := by
  induction l generalizing n with
  | nil => simp
  | cons x xs ih =>
    cases n with
    | zero => simp [hf]
    | succ k => simp [ih]

/-- The published messages of two runs of calls, one after the other. -/
theorem published_append (xs ys : List Effect) :
    published (xs ++ ys) = published xs ++ published ys := by
  induction xs with
  | nil => rfl
  | cons x xs ih => cases x <;> simp [published, ih]

/-- Adding tracks to a session publishes nothing. -/
theorem published_addTrack {α : Type} (pc : Nat) (f : α → Nat) (l : List α) :
    published (l.map (fun t => Effect.pcAddTrack pc (f t))) = [] := by
  induction l with
  | nil => rfl
  | cons x xs ih => simpa [published] using ih

/-- Adding tracks to a session publishes nothing (composed form). -/
theorem published_addTrack_comp {α : Type} (pc : Nat) (f : α → Nat) (l : List α) :
    published (l.map ((fun t => Effect.pcAddTrack pc t) ∘ f)) = [] :=
  published_addTrack pc f l

/-- The teardown writes no ref and no continuation. -/
theorem cleanup_frame (s : Room) :
    (cleanup s).1.tasks = s.tasks ∧ (cleanup s).1.peerConnectionRef = s.peerConnectionRef
      ∧ (cleanup s).1.userIdRef = s.userIdRef ∧ (cleanup s).1.roomId = s.roomId := by
  obtain ⟨mounted, roomId, isConnected, isMuted, isVideoOff, connectionStatus, localVideoRef,
    remoteVideoRef, peerConnectionRef, localStreamRef, pusherRef, channelRef, userIdRef, pcs,
    tasks, orphanPushers, orphanChannels⟩ := s
  cases localStreamRef <;> cases peerConnectionRef <;> cases channelRef <;> cases pusherRef <;>
    simp [cleanup]

/-- The calls a resumed continuation makes depend only on the continuations, the session
reference, the participant id and the room id. -/
theorem settle_calls_congr (s s1 : Room) (i : Nat) (o : Outcome)
    (ht : s1.tasks = s.tasks) (hp : s1.peerConnectionRef = s.peerConnectionRef)
    (hu : s1.userIdRef = s.userIdRef) (hr : s1.roomId = s.roomId) :
    (settle s1 i o).map Prod.snd = (settle s i o).map Prod.snd := by
  unfold settle
  rw [ht]
  cases hget : s.tasks[i]? with
  | none => rfl
  | some t =>
    cases t <;> cases o <;>
      simp [resumeOnCurrent, triggerEvent, initPusher, initMediaResolved, initMediaRejected,
        acceptLocal, acceptRemote, acceptCandidate, hp, hu, hr] <;>
      cases s.peerConnectionRef <;> simp

/-- The first track of kind `k` is the one toggled, the tracks around it are kept. -/
theorem toggleFirst_at (k : TrackKind) (pre post : List MediaStreamTrack) (t : MediaStreamTrack)
    (hpre : ∀ x ∈ pre, x.kind ≠ k) (ht : t.kind = k) :
    toggleFirst k (pre ++ t :: post)
      = some (pre ++ { t with enabled := !t.enabled } :: post, !t.enabled) := by
  induction pre with
  | nil => simp [toggleFirst, ht]
  | cons x xs ih =>
    have hx : x.kind ≠ k := hpre x (List.mem_cons_self _ _)
    have hxs : ∀ y ∈ xs, y.kind ≠ k := fun y hy => hpre y (List.mem_cons_of_mem _ hy)
    simp [toggleFirst, hx, ih hxs]

/-- Without a track of kind `k` there is nothing to toggle. -/
theorem toggleFirst_none (k : TrackKind) (l : List MediaStreamTrack)
    (h : ∀ x ∈ l, x.kind ≠ k) : toggleFirst k l = none := by
  induction l with
  | nil => rfl
  | cons x xs ih =>
    have hx : x.kind ≠ k := h x (List.mem_cons_self _ _)
    have hxs : ∀ y ∈ xs, y.kind ≠ k := fun y hy => h y (List.mem_cons_of_mem _ hy)
    simp [toggleFirst, hx, ih hxs]

/-- The effect runs twice while both media acquisitions are pending (cleanup in between): the
second `initPusher` pushes the first channel out of `channelRef`; the orphan keeps its five
handlers, and a user-joined delivered on both channels starts two calls. -/
theorem orphan_channel_still_delivers :
    ((Room.init (some "r")).run
        [.effect "a", .cleanup, .effect "a2", .settle 0 (.stream ⟨0, []⟩),
         .settle 0 (.stream ⟨1, []⟩), .orphanMessage 0 (.userJoined (some "b")),
         .message (.userJoined (some "b"))]).map
        (fun r => (r.1.orphanChannels, r.1.channelRef, r.1.pcs.length, r.1.peerConnectionRef))
      = some ([⟨"private-room-r", true, boundEvents⟩],
              some ⟨"private-room-r", true, boundEvents⟩, 2, some 1) := by
  rfl

/-! ## Self-echo suppression -/

/-- C1: a signaling message (user-joined, offer, answer, ice-candidate) whose senderId equals
the local participant id is discarded by its handler: the whole state is unchanged (session
reference, sessions and their descriptions, suspended continuations) and no call is made, so
nothing reaches the transport session and nothing is published. -/
theorem self_echo_discarded (s : Room) (m : SignalingMessage)
    (h : m.senderId = s.userIdRef) : onMessage s m = (s, []) := by
  cases m <;> simp_all [onMessage, onUserJoined, handleOffer, handleAnswer,
    handleIceCandidate, SignalingMessage.senderId]

/-- An own Offer echoed back by the relay is discarded. -/
theorem self_echo_discarded_witness :
    (SignalingMessage.offer "sdp" (some "a1")).senderId
        = ({ Room.init (some "r") with userIdRef := some "a1" } : Room).userIdRef
      ∧ onMessage { Room.init (some "r") with userIdRef := some "a1" }
          (SignalingMessage.offer "sdp" (some "a1"))
        = ({ Room.init (some "r") with userIdRef := some "a1" }, []) :=
  ⟨rfl, self_echo_discarded _ _ rfl⟩

/-! ## Candidates that arrive before the remote description -/

/-- C2, refuted as stated.  First run: two candidates from "b" arrive while no transport
session exists, then the Offer of "b" is handled and its remote description applied; the
candidates are in no buffer, `addIceCandidate` is never called and the session has no
candidate.  Second run: the offerer is waiting for the Answer (no remote description) when a
candidate arrives, and it is handed to the transport at once. -/
theorem candidates_before_remote_description_not_buffered :
    (Room.init (some "r")).run
        [.effect "a", .settle 0 (.stream ⟨0, []⟩), .subscriptionSucceeded, .settle 0 .resolved,
         .message (.iceCandidate "c1" (some "b")), .message (.iceCandidate "c2" (some "b")),
         .message (.offer "o" (some "b")), .settle 0 .resolved]
      = some
        ({ mounted := true, orphanPushers := [], orphanChannels := [],
           roomId := some "r", isConnected := false, isMuted := false, isVideoOff := false,
           connectionStatus := "Waiting for peer...",
           localVideoRef := some ⟨some 0⟩, remoteVideoRef := some ⟨none⟩,
           peerConnectionRef := some 0, localStreamRef := some ⟨0, []⟩,
           pusherRef := some ⟨true⟩,
           channelRef := some ⟨"private-room-r", true, boundEvents⟩,
           userIdRef := some "a",
           pcs := [{ closed := false, senders := [], localDescription := none,
                     remoteDescription := some "o", candidates := [] }],
           tasks := [Pending.offerCreateAnswer 0] },
         [Effect.getUserMedia, Effect.pusherNew, Effect.pusherSubscribe "private-room-r",
          Effect.channelBind "pusher:subscription_succeeded", Effect.channelBind "user-joined",
          Effect.channelBind "offer", Effect.channelBind "answer",
          Effect.channelBind "ice-candidate",
          Effect.fetchTrigger "private-room-r" (.userJoined (some "a")),
          Effect.pcNew 0, Effect.pcSetRemoteDescription 0 "o", Effect.pcCreateAnswer 0])
    ∧ ((Room.init (some "r")).run
        [.effect "a", .settle 0 (.stream ⟨0, []⟩), .subscriptionSucceeded, .settle 0 .resolved,
         .message (.userJoined (some "b")), .settle 0 (.description "o"), .settle 0 .resolved,
         .settle 0 .resolved, .message (.iceCandidate "c1" (some "b"))]).map
        (fun r => (r.1.pcs.map (fun p => p.remoteDescription), r.1.tasks, r.2.getLast?))
      = some ([none], [Pending.iceAdd 0 "c1"], some (Effect.pcAddIceCandidate 0 "c1")) := by
  constructor <;> rfl

/-- C2, amended: a candidate from another participant is never buffered.  When a transport
session is referenced it is handed to that session at once (`addIceCandidate` is called),
whatever descriptions have been applied; when none is referenced it is dropped, the state
unchanged and no call made.  Handling an Offer or an Answer calls no `addIceCandidate`, and
when the transport has applied the remote description the resumed handler calls none either
and every session keeps the candidates it had. -/
theorem candidate_handed_over_or_dropped (s : Room) (c : IceCandidate)
    (senderId : Option ParticipantId) (h : senderId ≠ s.userIdRef) :
    (s.peerConnectionRef = none → handleIceCandidate s c senderId = (s, []))
    ∧ (∀ pc, s.peerConnectionRef = some pc →
        handleIceCandidate s c senderId
          = ({ s with tasks := s.tasks ++ [Pending.iceAdd pc c] },
             [Effect.pcAddIceCandidate pc c]))
    ∧ (∀ d from_ pc x, Effect.pcAddIceCandidate pc x ∉ (handleOffer s d from_).2
        ∧ Effect.pcAddIceCandidate pc x ∉ (handleAnswer s d from_).2)
    ∧ (∀ i pc d r, (s.tasks[i]? = some (Pending.offerSetRemote pc d)
          ∨ s.tasks[i]? = some (Pending.answerSetRemote pc d)) →
        settle s i Outcome.resolved = some r →
        (∀ q x, Effect.pcAddIceCandidate q x ∉ r.2)
        ∧ r.1.pcs.map (fun p => p.candidates) = s.pcs.map (fun p => p.candidates)) := by
  refine ⟨?_, ?_, ?_, ?_⟩
  · intro hr
    simp [handleIceCandidate, h, hr]
  · intro pc hr
    simp [handleIceCandidate, h, hr]
  · intro d from_ pc x
    constructor
    · unfold handleOffer createPeerConnection
      split <;> simp
    · unfold handleAnswer
      split
      · simp
      · split <;> simp
  · intro i pc d r ht hs
    rcases ht with ht | ht
    · simp only [settle, ht, acceptRemote, resumeOnCurrent] at hs
      cases hp : s.peerConnectionRef <;> simp only [hp, Option.some.injEq] at hs <;> subst hs
        <;> simp [map_modify_preserved]
    · simp only [settle, ht, acceptRemote, Option.some.injEq] at hs
      subst hs
      simp [map_modify_preserved]

/-- A candidate of another participant that arrives while no session is referenced is dropped. -/
theorem candidate_handed_over_or_dropped_witness :
    (some "b" : Option ParticipantId)
        ≠ ({ Room.init (some "r") with userIdRef := some "a" } : Room).userIdRef
      ∧ handleIceCandidate { Room.init (some "r") with userIdRef := some "a" } "c1" (some "b")
        = ({ Room.init (some "r") with userIdRef := some "a" }, []) :=
  ⟨by decide, (candidate_handed_over_or_dropped _ "c1" (some "b") (by decide)).1 rfl⟩


/-! ## Two-party role assignment -/

/-- C3, refuted as stated: A subscribes first and B second, and the relay delivers every
published message, in publishing order, to every current subscriber, its sender included;
but B is already subscribed when the user-joined of A is delivered.  B observes the
user-joined of A and A the user-joined of B: both create a transport session and both
publish an Offer. -/
theorem both_sides_offer_when_announces_cross :
    ((World.init (some "room")).run
        [ .room .a (.effect "a1"), .room .a (.settle 0 (.stream ⟨0, []⟩)), .granted .a,
          .room .a (.settle 0 .resolved),
          .room .b (.effect "b2"), .room .b (.settle 0 (.stream ⟨1, []⟩)), .granted .b,
          .room .b (.settle 0 .resolved),
          .deliver, .deliver,
          .room .a (.settle 0 (.description "oa")), .room .a (.settle 0 .resolved),
          .room .b (.settle 0 (.description "ob")), .room .b (.settle 0 .resolved) ]).map
        (fun w => (w.subscribers, w.aCalls, w.bCalls, w.queue))
      = some
        ([(Who.a, "private-room-room"), (Who.b, "private-room-room")],
         [Effect.getUserMedia, Effect.pusherNew, Effect.pusherSubscribe "private-room-room",
          Effect.channelBind "pusher:subscription_succeeded", Effect.channelBind "user-joined",
          Effect.channelBind "offer", Effect.channelBind "answer",
          Effect.channelBind "ice-candidate",
          Effect.fetchTrigger "private-room-room" (.userJoined (some "a1")),
          Effect.pcNew 0, Effect.pcCreateOffer 0, Effect.pcSetLocalDescription 0 "oa",
          Effect.fetchTrigger "private-room-room" (.offer "oa" (some "a1"))],
         [Effect.getUserMedia, Effect.pusherNew, Effect.pusherSubscribe "private-room-room",
          Effect.channelBind "pusher:subscription_succeeded", Effect.channelBind "user-joined",
          Effect.channelBind "offer", Effect.channelBind "answer",
          Effect.channelBind "ice-candidate",
          Effect.fetchTrigger "private-room-room" (.userJoined (some "b2")),
          Effect.pcNew 0, Effect.pcCreateOffer 0, Effect.pcSetLocalDescription 0 "ob",
          Effect.fetchTrigger "private-room-room" (.offer "ob" (some "b2"))],
         [("private-room-room", .offer "oa" (some "a1")),
          ("private-room-room", .offer "ob" (some "b2"))]) := by
  rfl

/-- C3, amended: two participants with distinct ids enter the same room one after the other,
on the schedule `twoPartySchedule`.  A acquires its media, is granted its subscription,
publishes its user-joined and gets it delivered before B does the same; from then on each
published message is delivered, to every current subscriber and its sender included, once
the handlers started by the previous delivery have finished, the transport and `fetch`
resolving every promise.  The run ends with nothing left to deliver or to resume, and with
exactly these calls made.  A publishes nothing on its own user-joined and, on the
user-joined of B, creates one transport session and publishes one Offer; B publishes nothing
on its own user-joined, creates one transport session on the Offer of A and publishes one
Answer and no Offer; after A has handled the Answer the session of each side has a local and
a remote description applied. -/
theorem two_party_roles (idA idB : ParticipantId) (roomId : String)
    (streamA streamB : MediaStream) (offer answer : SessionDescription)
    (hid : idA ≠ idB) (hroom : roomId ≠ "") :
    (World.init (some roomId)).run (twoPartySchedule idA idB streamA streamB offer answer)
      = some
        { a := { Room.init (some roomId) with
                 connectionStatus := "Waiting for peer..."
                 localVideoRef := some ⟨some streamA.id⟩
                 peerConnectionRef := some 0
                 localStreamRef := some streamA
                 pusherRef := some ⟨true⟩
                 channelRef := some ⟨channelName (some roomId), true, boundEvents⟩
                 userIdRef := some idA
                 pcs := [{ closed := false, senders := streamA.tracks.map (fun t => t.id),
                           localDescription := some offer, remoteDescription := some answer,
                           candidates := [] }] }
          b := { Room.init (some roomId) with
                 connectionStatus := "Waiting for peer..."
                 localVideoRef := some ⟨some streamB.id⟩
                 peerConnectionRef := some 0
                 localStreamRef := some streamB
                 pusherRef := some ⟨true⟩
                 channelRef := some ⟨channelName (some roomId), true, boundEvents⟩
                 userIdRef := some idB
                 pcs := [{ closed := false, senders := streamB.tracks.map (fun t => t.id),
                           localDescription := some answer, remoteDescription := some offer,
                           candidates := [] }] }
          subscribers := [(Who.a, channelName (some roomId)), (Who.b, channelName (some roomId))]
          queue := []
          aCalls :=
            [Effect.getUserMedia, Effect.pusherNew,
             Effect.pusherSubscribe (channelName (some roomId))]
            ++ boundEvents.map Effect.channelBind
            ++ [Effect.fetchTrigger (channelName (some roomId)) (.userJoined (some idA)),
                Effect.pcNew 0]
            ++ streamA.tracks.map (fun t => Effect.pcAddTrack 0 t.id)
            ++ [Effect.pcCreateOffer 0, Effect.pcSetLocalDescription 0 offer,
                Effect.fetchTrigger (channelName (some roomId)) (.offer offer (some idA)),
                Effect.pcSetRemoteDescription 0 answer]
          bCalls :=
            [Effect.getUserMedia, Effect.pusherNew,
             Effect.pusherSubscribe (channelName (some roomId))]
            ++ boundEvents.map Effect.channelBind
            ++ [Effect.fetchTrigger (channelName (some roomId)) (.userJoined (some idB)),
                Effect.pcNew 0]
            ++ streamB.tracks.map (fun t => Effect.pcAddTrack 0 t.id)
            ++ [Effect.pcSetRemoteDescription 0 offer, Effect.pcCreateAnswer 0,
                Effect.pcSetLocalDescription 0 answer,
                Effect.fetchTrigger (channelName (some roomId)) (.answer answer (some idB))] } := by
  have hid2 : idB ≠ idA := fun h => hid h.symm
  simp [twoPartySchedule, World.run, World.step, World.init, World.room, World.record,
    World.deliverTo, Room.step, Room.handle, dropSetters, emitMessage,
    emitSubscriptionSucceeded, Room.init, roomEffect, settle, initPusher, initMediaResolved,
    onSubscriptionSucceeded, triggerEvent, published, isBound, boundEvents, onMessage,
    onUserJoined, startCall, createPeerConnection, handleOffer, handleAnswer,
    resumeOnCurrent, acceptLocal, acceptRemote, SignalingMessage.event, hid, hid2, hroom,
    published_append, published_addTrack_comp]

/-- The two-party run for participants a1 and b2 in room `room`. -/
theorem two_party_roles_witness :
    ("a1" : ParticipantId) ≠ "b2" ∧ ("room" : String) ≠ ""
      ∧ ((World.init (some "room")).run
          (twoPartySchedule "a1" "b2" ⟨0, [⟨0, .audio, true, false⟩]⟩
            ⟨1, [⟨2, .video, true, false⟩]⟩ "o" "ans")).map
          (fun w => (w.a.pcs, w.b.pcs, w.queue))
        = some ([{ closed := false, senders := [0], localDescription := some "o",
                   remoteDescription := some "ans", candidates := [] }],
                [{ closed := false, senders := [2], localDescription := some "ans",
                   remoteDescription := some "o", candidates := [] }], []) :=
  ⟨by decide, by decide, by
    rw [two_party_roles "a1" "b2" "room" _ _ "o" "ans" (by decide) (by decide)]; rfl⟩

/-! ## Teardown -/

/-- C4, refuted as stated: a room with two local tracks, a transport session, a channel and
a relay client is torn down twice in a row; the second teardown makes every release call
again. -/
theorem second_teardown_releases_again :
    ((Room.init (some "r")).run
        [.effect "a", .settle 0 (.stream ⟨0, [⟨0, .audio, true, false⟩, ⟨1, .video, true, false⟩]⟩),
         .subscriptionSucceeded, .settle 0 .resolved, .message (.userJoined (some "b")),
         .cleanup]).map (fun r => (cleanup r.1).2)
      = some [Effect.trackStop 0, Effect.trackStop 1, Effect.pcClose 0, Effect.channelUnbindAll,
         Effect.channelUnsubscribe, Effect.pusherDisconnect] := by
  rfl

/-- C4, amended: the teardown has no guard.  One run stops every track of the local
stream, closes the referenced transport session, unbinds and unsubscribes the channel and
disconnects the relay client, each when its ref is set, in this order, and writes no ref.
Run twice in a row, its second run makes exactly the release calls of the first run again
(each called twice in total), and the state after the second run equals the state after the
first. -/
theorem teardown_twice (s : Room) :
    cleanup s
      = ({ s with
           localStreamRef := s.localStreamRef.map (fun st =>
             { st with tracks := st.tracks.map (fun t => { t with stopped := true }) })
           pcs := match s.peerConnectionRef with
             | some pc => s.pcs.modify (fun p => { p with closed := true }) pc
             | none => s.pcs
           channelRef := s.channelRef.map (fun ch => { ch with bound := [], subscribed := false })
           pusherRef := s.pusherRef.map (fun _ => ⟨false⟩) },
         (match s.localStreamRef with
           | some st => st.tracks.map (fun t => Effect.trackStop t.id)
           | none => [])
         ++ (match s.peerConnectionRef with
           | some pc => [Effect.pcClose pc]
           | none => [])
         ++ (match s.channelRef with
           | some _ => [Effect.channelUnbindAll, Effect.channelUnsubscribe]
           | none => [])
         ++ (match s.pusherRef with
           | some _ => [Effect.pusherDisconnect]
           | none => []))
    ∧ cleanup (cleanup s).1 = ((cleanup s).1, (cleanup s).2) := by
  obtain ⟨mounted, roomId, isConnected, isMuted, isVideoOff, connectionStatus, localVideoRef,
    remoteVideoRef, peerConnectionRef, localStreamRef, pusherRef, channelRef, userIdRef, pcs,
    tasks, orphanPushers, orphanChannels⟩ := s
  cases localStreamRef <;> cases peerConnectionRef <;> cases channelRef <;> cases pusherRef <;>
    simp [cleanup, List.modify_modify_eq, Function.comp_def]

/-! ## Completions after the teardown -/

/-- C5, refuted as stated.  First run: the component unmounts (teardown) while media
acquisition is pending, then the acquisition resolves: the stream is stored, the relay client
is created, the channel is subscribed and the five handlers are bound.  Second run: the
teardown runs while the Offer handler awaits the transport; resumed afterwards, the handler
goes on calling the transport and publishes the Answer. -/
theorem late_completions_resurrect_session :
    (Room.init (some "r")).run
        [.effect "a", .unmount, .settle 0 (.stream ⟨0, [⟨0, .audio, true, false⟩]⟩)]
      = some
        ({ mounted := false, orphanPushers := [], orphanChannels := [],
           roomId := some "r", isConnected := false, isMuted := false, isVideoOff := false,
           connectionStatus := "Connecting...",
           localVideoRef := none, remoteVideoRef := none, peerConnectionRef := none,
           localStreamRef := some ⟨0, [⟨0, .audio, true, false⟩]⟩,
           pusherRef := some ⟨true⟩,
           channelRef := some ⟨"private-room-r", true, boundEvents⟩,
           userIdRef := some "a", pcs := [], tasks := [] },
         [Effect.getUserMedia, Effect.pusherNew, Effect.pusherSubscribe "private-room-r",
          Effect.channelBind "pusher:subscription_succeeded", Effect.channelBind "user-joined",
          Effect.channelBind "offer", Effect.channelBind "answer",
          Effect.channelBind "ice-candidate"])
    ∧ ((Room.init (some "r")).run
        [.effect "a", .settle 0 (.stream ⟨0, []⟩), .subscriptionSucceeded, .settle 0 .resolved,
         .message (.offer "o" (some "b")), .unmount]).bind
        (fun r => (r.1.run
          [.settle 0 .resolved, .settle 0 (.description "ans"), .settle 0 .resolved]).map
          Prod.snd)
      = some [Effect.pcCreateAnswer 0, Effect.pcSetLocalDescription 0 "ans",
              Effect.fetchTrigger "private-room-r" (.answer "ans" (some "a"))] := by
  constructor <;> rfl

/-- C5, amended: the teardown cancels nothing.  It leaves every suspended continuation in
place, and a continuation resumed after the teardown makes exactly the calls it would have
made without it.  In particular, when the teardown runs while media acquisition is pending,
the settling of the acquisition afterwards creates the relay client, subscribes the channel
and binds the five handlers, and on success stores the stream. -/
theorem teardown_cancels_nothing (s : Room) (i : Nat) (o : Outcome) :
    (cleanup s).1.tasks = s.tasks
    ∧ (settle (cleanup s).1 i o).map Prod.snd = (settle s i o).map Prod.snd
    ∧ (∀ st, s.tasks[i]? = some Pending.getUserMedia →
        ∃ r, settle (cleanup s).1 i (Outcome.stream st) = some r
          ∧ r.1.localStreamRef = some st
          ∧ r.1.pusherRef = some ⟨true⟩
          ∧ r.1.channelRef = some ⟨channelName s.roomId, true, boundEvents⟩
          ∧ r.2 = [Effect.pusherNew, Effect.pusherSubscribe (channelName s.roomId)]
                    ++ boundEvents.map Effect.channelBind)
    ∧ (s.tasks[i]? = some Pending.getUserMedia →
        ∃ r, settle (cleanup s).1 i Outcome.rejected = some r
          ∧ r.1.pusherRef = some ⟨true⟩
          ∧ r.1.channelRef = some ⟨channelName s.roomId, true, boundEvents⟩
          ∧ r.2 = [Effect.consoleError "Error accessing media devices:", Effect.pusherNew,
                   Effect.pusherSubscribe (channelName s.roomId)]
                    ++ boundEvents.map Effect.channelBind) := by
  obtain ⟨h1, h2, h3, h4⟩ := cleanup_frame s
  refine ⟨h1, settle_calls_congr s _ i o h1 h2 h3 h4, ?_, ?_⟩
  · intro st hg
    simp [settle, h1, hg, initPusher, initMediaResolved, h4]
  · intro hg
    simp [settle, h1, hg, initPusher, initMediaRejected, h4]

/-- Media acquisition resolving after the teardown opens the channel. -/
theorem teardown_cancels_nothing_witness :
    ∃ r, settle (cleanup { Room.init (some "r") with
                           userIdRef := some "a", tasks := [Pending.getUserMedia] }).1 0
            (Outcome.stream ⟨0, []⟩) = some r
      ∧ r.1.localStreamRef = some ⟨0, []⟩
      ∧ r.1.pusherRef = some ⟨true⟩
      ∧ r.1.channelRef = some ⟨channelName (some "r"), true, boundEvents⟩
      ∧ r.2 = [Effect.pusherNew, Effect.pusherSubscribe (channelName (some "r"))]
                ++ boundEvents.map Effect.channelBind :=
  (teardown_cancels_nothing { Room.init (some "r") with
      userIdRef := some "a", tasks := [Pending.getUserMedia] } 0 Outcome.resolved).2.2.1
    ⟨0, []⟩ rfl

/-! ## Mute and video toggles -/

/-- C6: with a local stream whose first audio (resp. video) track is `t`, toggleMute (resp.
toggleVideo) writes the negated enabled flag on `t` and sets isMuted (resp. isVideoOff) to
the negation of the new flag; every other field of the state (connection status,
isConnected, session reference, sessions, the other flag), every other track, and the id,
kind and stopped condition of `t` are as before.  Without a local stream, or without a track
of that kind, the state is unchanged. -/
theorem toggle_frame (s : Room) :
    (s.localStreamRef = none → toggleMute s = s ∧ toggleVideo s = s)
    ∧ (∀ st, s.localStreamRef = some st →
        ((∀ x ∈ st.tracks, x.kind ≠ TrackKind.audio) → toggleMute s = s)
        ∧ ((∀ x ∈ st.tracks, x.kind ≠ TrackKind.video) → toggleVideo s = s))
    ∧ (∀ st pre t post, s.localStreamRef = some st → st.tracks = pre ++ t :: post →
        (∀ x ∈ pre, x.kind ≠ TrackKind.audio) → t.kind = TrackKind.audio →
        toggleMute s
          = { s with
              localStreamRef :=
                some { st with tracks := pre ++ { t with enabled := !t.enabled } :: post }
              isMuted := !(!t.enabled) })
    ∧ (∀ st pre t post, s.localStreamRef = some st → st.tracks = pre ++ t :: post →
        (∀ x ∈ pre, x.kind ≠ TrackKind.video) → t.kind = TrackKind.video →
        toggleVideo s
          = { s with
              localStreamRef :=
                some { st with tracks := pre ++ { t with enabled := !t.enabled } :: post }
              isVideoOff := !(!t.enabled) }) := by
  refine ⟨?_, ?_, ?_, ?_⟩
  · intro h
    simp [toggleMute, toggleVideo, h]
  · intro st h
    constructor
    · intro hk
      simp [toggleMute, h, toggleFirst_none _ _ hk]
    · intro hk
      simp [toggleVideo, h, toggleFirst_none _ _ hk]
  · intro st pre t post h htr hpre ht
    simp [toggleMute, h, htr, toggleFirst_at _ _ _ _ hpre ht]
  · intro st pre t post h htr hpre ht
    simp [toggleVideo, h, htr, toggleFirst_at _ _ _ _ hpre ht]

/-- Muting a stream whose audio track comes second. -/
theorem toggle_frame_witness :
    toggleMute { Room.init (some "r") with
        localStreamRef := some ⟨0, [⟨0, .video, true, false⟩, ⟨1, .audio, true, false⟩]⟩ }
      = { Room.init (some "r") with
          localStreamRef := some ⟨0, [⟨0, .video, true, false⟩, ⟨1, .audio, false, false⟩]⟩
          isMuted := true } :=
  (toggle_frame { Room.init (some "r") with
      localStreamRef := some ⟨0, [⟨0, .video, true, false⟩, ⟨1, .audio, true, false⟩]⟩ }).2.2.1
    ⟨0, [⟨0, .video, true, false⟩, ⟨1, .audio, true, false⟩]⟩
    [⟨0, .video, true, false⟩] ⟨1, .audio, true, false⟩ [] rfl rfl (by decide) rfl

/-! ## Connection status -/

/-- The teardown leaves the mounted flag and the remote video ref as they are. -/
theorem cleanup_mounted_remote (s : Room) :
    (cleanup s).1.mounted = s.mounted ∧ (cleanup s).1.remoteVideoRef = s.remoteVideoRef := by
  obtain ⟨mounted, roomId, isConnected, isMuted, isVideoOff, connectionStatus, localVideoRef,
    remoteVideoRef, peerConnectionRef, localStreamRef, pusherRef, channelRef, userIdRef, pcs,
    tasks, orphanPushers, orphanChannels⟩ := s
  cases localStreamRef <;> cases peerConnectionRef <;> cases channelRef <;> cases pusherRef <;>
    simp [cleanup]

/-- A resumed continuation leaves the mounted flag and the remote video ref as they are. -/
theorem settle_mounted_remote (s : Room) (i : Nat) (o : Outcome) (r : Room × List Effect)
    (h : settle s i o = some r) :
    r.1.mounted = s.mounted ∧ r.1.remoteVideoRef = s.remoteVideoRef := by
  unfold settle at h
  cases hget : s.tasks[i]? with
  | none => simp [hget] at h
  | some t =>
    cases t <;> cases o <;>
      simp [hget, resumeOnCurrent, triggerEvent, initPusher, initMediaResolved,
        initMediaRejected, acceptLocal, acceptRemote, acceptCandidate] at h <;>
      subst h <;> (try cases s.peerConnectionRef) <;> simp

/-- The code run by an event either unmounts the component, or leaves the mounted flag and
keeps a remote video ref that was set. -/
theorem handle_mounted_remote (s : Room) (e : Event) (r : Room × List Effect)
    (h : s.handle e = some r) :
    r.1.mounted = false
    ∨ (r.1.mounted = s.mounted ∧ (s.remoteVideoRef ≠ none → r.1.remoteVideoRef ≠ none)) := by
  have hmsg : ∀ m, (onMessage s m).1.mounted = s.mounted
      ∧ (onMessage s m).1.remoteVideoRef = s.remoteVideoRef := by
    intro m
    cases m <;>
      simp only [onMessage, onUserJoined, handleOffer, handleAnswer, handleIceCandidate,
        startCall, createPeerConnection] <;>
      split <;> (try split) <;> simp
  have hemit : ∀ ch m, (emitMessage s ch m).1.mounted = s.mounted
      ∧ (emitMessage s ch m).1.remoteVideoRef = s.remoteVideoRef := by
    intro ch m
    unfold emitMessage
    split
    · exact hmsg m
    · exact ⟨rfl, rfl⟩
  have hsub : ∀ ch, (emitSubscriptionSucceeded s ch).1.mounted = s.mounted
      ∧ (emitSubscriptionSucceeded s ch).1.remoteVideoRef = s.remoteVideoRef := by
    intro ch
    unfold emitSubscriptionSucceeded
    split <;> simp [onSubscriptionSucceeded, triggerEvent]
  have keep : ∀ r0 : Room, r0.mounted = s.mounted ∧ r0.remoteVideoRef = s.remoteVideoRef →
      r0.mounted = false
      ∨ (r0.mounted = s.mounted ∧ (s.remoteVideoRef ≠ none → r0.remoteVideoRef ≠ none)) := by
    intro r0 h0
    exact Or.inr ⟨h0.1, fun hne => by rw [h0.2]; exact hne⟩
  cases e with
  | effect randomId =>
    simp only [Room.handle, Option.some.injEq] at h
    subst h
    apply keep
    simp only [roomEffect]
    split <;> simp
  | cleanup =>
    simp only [Room.handle, Option.some.injEq] at h
    subst h
    exact keep _ (cleanup_mounted_remote s)
  | unmount =>
    simp only [Room.handle, Option.some.injEq] at h
    subst h
    exact Or.inl (by rw [unmount, (cleanup_mounted_remote _).1])
  | settle i o => exact keep _ (settle_mounted_remote s i o r h)
  | subscriptionSucceeded =>
    simp only [Room.handle] at h
    cases hc : s.channelRef <;> simp only [hc, Option.some.injEq] at h <;> subst h
    · exact keep _ ⟨rfl, rfl⟩
    · exact keep _ (hsub _)
  | message m =>
    simp only [Room.handle] at h
    cases hc : s.channelRef <;> simp only [hc, Option.some.injEq] at h <;> subst h
    · exact keep _ ⟨rfl, rfl⟩
    · exact keep _ (hemit _ m)
  | orphanSubscriptionSucceeded i =>
    simp only [Room.handle] at h
    cases hc : s.orphanChannels[i]? <;> simp only [hc, Option.some.injEq] at h
    · exact absurd h (by simp)
    · subst h
      exact keep _ (hsub _)
  | orphanMessage i m =>
    simp only [Room.handle] at h
    cases hc : s.orphanChannels[i]? <;> simp only [hc, Option.some.injEq] at h
    · exact absurd h (by simp)
    · subst h
      exact keep _ (hemit _ m)
  | icecandidate candidate =>
    simp only [Room.handle, Option.some.injEq] at h
    subst h
    apply keep
    cases candidate <;> simp [onicecandidate, triggerEvent]
  | track streams =>
    simp only [Room.handle, Option.some.injEq] at h
    subst h
    refine Or.inr ?_
    simp only [ontrack]
    split <;> simp
  | connectionstatechange st =>
    simp only [Room.handle, Option.some.injEq] at h
    subst h
    apply keep
    simp only [onconnectionstatechange]
    split_ifs <;> simp
  | toggleMute =>
    simp only [Room.handle, Option.some.injEq] at h
    subst h
    apply keep
    simp only [toggleMute]
    split
    · split <;> simp
    · simp
  | toggleVideo =>
    simp only [Room.handle, Option.some.injEq] at h
    subst h
    apply keep
    simp only [toggleVideo]
    split
    · split <;> simp
    · simp
  | endCall =>
    simp only [Room.handle, Option.some.injEq] at h
    subst h
    exact keep _ ⟨rfl, rfl⟩

/-- One turn of the event loop either ends unmounted, or leaves the mounted flag and keeps a
remote video ref that was set. -/
theorem step_mounted_remote (s : Room) (e : Event) (r : Room × List Effect)
    (h : s.step e = some r) :
    r.1.mounted = false
    ∨ (r.1.mounted = s.mounted ∧ (s.remoteVideoRef ≠ none → r.1.remoteVideoRef ≠ none)) := by
  unfold Room.step at h
  cases hh : s.handle e with
  | none => simp [hh] at h
  | some r0 =>
    simp only [hh, Option.some.injEq] at h
    subst h
    have h0 := handle_mounted_remote s e r0 hh
    unfold dropSetters
    by_cases hm : s.mounted = true
    · simpa only [hm, if_true] using h0
    · simpa only [hm] using h0

/-- While the component is mounted, the remote video element is in its ref: every run of the
event loop from a state where this holds ends in a state where it holds. -/
theorem run_mounted_remote (events : List Event) (s : Room) (r : Room × List Effect)
    (hinv : s.mounted = true → s.remoteVideoRef ≠ none)
    (hrun : s.run events = some r) :
    r.1.mounted = true → r.1.remoteVideoRef ≠ none := by
  induction events generalizing s r with
  | nil =>
    simp only [Room.run, Option.some.injEq] at hrun
    subst hrun
    exact hinv
  | cons e es ih =>
    simp only [Room.run] at hrun
    cases hstep : s.step e with
    | none => simp [hstep] at hrun
    | some r1 =>
      cases hrest : r1.1.run es with
      | none => simp [hstep, hrest] at hrun
      | some r2 =>
        simp only [hstep, hrest, Option.some.injEq] at hrun
        subst hrun
        refine ih r1.1 r2 ?_ hrest
        intro hm1
        rcases step_mounted_remote s e r1 hstep with h1 | ⟨h1, h2⟩
        · rw [h1] at hm1
          exact absurd hm1 (by decide)
        · exact h2 (hinv (by rw [← h1]; exact hm1))

/-- C7: on a transport connectivity state change the status becomes Connected for
`connected`, Disconnected for `failed` and `disconnected`, Connecting for `connecting`, and
for every other transport state nothing changes; a remote-track event carrying a stream sets
the status to Connected.  The mapping holds in every state.  The remote-track clause holds
whenever the remote video element is in its ref, which is the case in every state the
mounted component reaches from its first render; and while the component is mounted the
event loop reports exactly what the two handlers write. -/
theorem connection_status_mapping (s : Room) (connectionState : String) :
    (connectionState = "connected" →
      (onconnectionstatechange s connectionState).1.connectionStatus = "Connected")
    ∧ (connectionState = "failed" ∨ connectionState = "disconnected" →
      (onconnectionstatechange s connectionState).1.connectionStatus = "Disconnected")
    ∧ (connectionState = "connecting" →
      (onconnectionstatechange s connectionState).1.connectionStatus = "Connecting...")
    ∧ (connectionState ≠ "connected" → connectionState ≠ "failed" →
        connectionState ≠ "disconnected" → connectionState ≠ "connecting" →
      onconnectionstatechange s connectionState = (s, []))
    ∧ (∀ stream streams, s.remoteVideoRef ≠ none →
      (ontrack s (stream :: streams)).1.connectionStatus = "Connected")
    ∧ (∀ roomId events effs, (Room.init roomId).run events = some (s, effs) →
        s.mounted = true →
      ∀ stream streams, (ontrack s (stream :: streams)).1.connectionStatus = "Connected")
    ∧ (s.mounted = true →
      s.step (Event.connectionstatechange connectionState)
          = some (onconnectionstatechange s connectionState)
      ∧ ∀ streams, s.step (Event.track streams) = some (ontrack s streams)) := by
  have htrack : ∀ stream streams, s.remoteVideoRef ≠ none →
      (ontrack s (stream :: streams)).1.connectionStatus = "Connected" := by
    intro stream streams h
    cases hr : s.remoteVideoRef with
    | none => exact absurd hr h
    | some v => simp [ontrack, hr]
  refine ⟨?_, ?_, ?_, ?_, htrack, ?_, ?_⟩
  · intro h
    simp [onconnectionstatechange, h]
  · intro h
    rcases h with h | h <;> simp [onconnectionstatechange, h]
  · intro h
    simp [onconnectionstatechange, h]
  · intro h1 h2 h3 h4
    simp [onconnectionstatechange, h1, h2, h3, h4]
  · intro roomId events effs hrun hm stream streams
    exact htrack stream streams
      (run_mounted_remote events (Room.init roomId) (s, effs) (fun _ => by simp [Room.init])
        hrun hm)
  · intro hm
    simp [Room.step, Room.handle, dropSetters, hm]

/-- The status on `failed`, on `closed`, and on a remote track after the component has
acquired its media and opened the channel. -/
theorem connection_status_mapping_witness :
    (onconnectionstatechange (Room.init (some "r")) "failed").1.connectionStatus
        = "Disconnected"
      ∧ onconnectionstatechange (Room.init (some "r")) "closed" = (Room.init (some "r"), [])
      ∧ (ontrack
          { Room.init (some "r") with
            connectionStatus := "Waiting for peer...", localVideoRef := some ⟨some 0⟩,
            localStreamRef := some ⟨0, []⟩, pusherRef := some ⟨true⟩,
            channelRef := some ⟨"private-room-r", true, boundEvents⟩, userIdRef := some "a" }
          [7]).1.connectionStatus = "Connected" :=
  ⟨(connection_status_mapping (Room.init (some "r")) "failed").2.1 (Or.inl rfl),
   (connection_status_mapping (Room.init (some "r")) "closed").2.2.2.1
     (by decide) (by decide) (by decide) (by decide),
   (connection_status_mapping
      { Room.init (some "r") with
        connectionStatus := "Waiting for peer...", localVideoRef := some ⟨some 0⟩,
        localStreamRef := some ⟨0, []⟩, pusherRef := some ⟨true⟩,
        channelRef := some ⟨"private-room-r", true, boundEvents⟩, userIdRef := some "a" }
      "closed").2.2.2.2.2.1 (some "r")
     [.effect "a", .settle 0 (.stream ⟨0, []⟩)]
     [Effect.getUserMedia, Effect.pusherNew, Effect.pusherSubscribe "private-room-r",
      Effect.channelBind "pusher:subscription_succeeded", Effect.channelBind "user-joined",
      Effect.channelBind "offer", Effect.channelBind "answer",
      Effect.channelBind "ice-candidate"]
     rfl rfl 7 []⟩

/-! ## A second Offer -/

/-- C8, refuted as stated: the offerer has created its transport session and published its
Offer when an Offer of the other participant arrives.  The handler installs a fresh session
as the session reference and applies the Offer to it; the previous session is not closed
(no `close` call is made) and no ref holds it any more. -/
theorem second_offer_leaks_session :
    ((Room.init (some "r")).run
        [.effect "a", .settle 0 (.stream ⟨0, []⟩), .subscriptionSucceeded, .settle 0 .resolved,
         .message (.userJoined (some "b")), .settle 0 (.description "o"), .settle 0 .resolved,
         .settle 0 .resolved]).map (fun r => (r.1.peerConnectionRef, r.1.pcs))
      = some
        (some 0,
         [{ closed := false, senders := [], localDescription := some "o",
            remoteDescription := none, candidates := [] }])
    ∧ ((Room.init (some "r")).run
        [.effect "a", .settle 0 (.stream ⟨0, []⟩), .subscriptionSucceeded, .settle 0 .resolved,
         .message (.userJoined (some "b")), .settle 0 (.description "o"), .settle 0 .resolved,
         .settle 0 .resolved, .message (.offer "o2" (some "b"))]).map
        (fun r => (r.1.peerConnectionRef, r.1.pcs, r.2))
      = some
        (some 1,
         [{ closed := false, senders := [], localDescription := some "o",
            remoteDescription := none, candidates := [] },
          { closed := false, senders := [], localDescription := none,
            remoteDescription := none, candidates := [] }],
         [Effect.getUserMedia, Effect.pusherNew, Effect.pusherSubscribe "private-room-r",
          Effect.channelBind "pusher:subscription_succeeded", Effect.channelBind "user-joined",
          Effect.channelBind "offer", Effect.channelBind "answer",
          Effect.channelBind "ice-candidate",
          Effect.fetchTrigger "private-room-r" (.userJoined (some "a")),
          Effect.pcNew 0, Effect.pcCreateOffer 0, Effect.pcSetLocalDescription 0 "o",
          Effect.fetchTrigger "private-room-r" (.offer "o" (some "a")),
          Effect.pcNew 1, Effect.pcSetRemoteDescription 1 "o2"]) := by
  constructor <;> rfl

/-- C8, amended: in a state whose session reference names an existing transport session,
handling an Offer from another participant creates a fresh session, installs it as the
session reference and hands it the Offer; the previous session is left as it was, in
particular not closed (no `close` call is made), and is no longer referenced. -/
theorem second_offer_replaces_session (s : Room) (offer : SessionDescription)
    (senderId : Option ParticipantId) (old : Nat) (h : senderId ≠ s.userIdRef)
    (hold : s.peerConnectionRef = some old) (hvalid : old < s.pcs.length) :
    (handleOffer s offer senderId).1.peerConnectionRef = some s.pcs.length
    ∧ (handleOffer s offer senderId).1.peerConnectionRef ≠ s.peerConnectionRef
    ∧ (handleOffer s offer senderId).1.pcs.length = s.pcs.length + 1
    ∧ (handleOffer s offer senderId).1.pcs[old]? = s.pcs[old]?
    ∧ (handleOffer s offer senderId).1.tasks
        = s.tasks ++ [Pending.offerSetRemote s.pcs.length offer]
    ∧ (∀ pc, Effect.pcClose pc ∉ (handleOffer s offer senderId).2)
    ∧ Effect.pcNew s.pcs.length ∈ (handleOffer s offer senderId).2
    ∧ Effect.pcSetRemoteDescription s.pcs.length offer ∈ (handleOffer s offer senderId).2 := by
  have hne : s.pcs.length ≠ old := Nat.ne_of_gt hvalid
  simp [handleOffer, createPeerConnection, h, hne, hold, List.getElem?_append_left hvalid]

/-- An Offer arriving at the offerer installs a second session. -/
theorem second_offer_replaces_session_witness :
    (handleOffer
        { Room.init (some "r") with
          userIdRef := some "a", peerConnectionRef := some 0,
          pcs := [{ closed := false, senders := [], localDescription := some "o",
                    remoteDescription := none, candidates := [] }] }
        "o2" (some "b")).1.peerConnectionRef = some 1 :=
  (second_offer_replaces_session
    { Room.init (some "r") with
      userIdRef := some "a", peerConnectionRef := some 0,
      pcs := [{ closed := false, senders := [], localDescription := some "o",
                remoteDescription := none, candidates := [] }] }
    "o2" (some "b") 0 (by decide) rfl (by decide)).1

/-! ## Answers -/

/-- C10, refuted as stated: a participant whose session has both descriptions applied
(Stable) receives another Answer from the other participant.  The handler hands it to the
transport session (`setRemoteDescription` is called), and when the transport accepts it the
applied remote description is replaced. -/
theorem answer_in_stable_is_applied :
    ((Room.init (some "r")).run
        [.effect "a", .settle 0 (.stream ⟨0, []⟩), .subscriptionSucceeded, .settle 0 .resolved,
         .message (.userJoined (some "b")), .settle 0 (.description "o"), .settle 0 .resolved,
         .settle 0 .resolved, .message (.answer "ans" (some "b")), .settle 0 .resolved]).map
        (fun r => (r.1.pcs, r.1.tasks))
      = some
        ([{ closed := false, senders := [], localDescription := some "o",
            remoteDescription := some "ans", candidates := [] }], [])
    ∧ ((Room.init (some "r")).run
        [.effect "a", .settle 0 (.stream ⟨0, []⟩), .subscriptionSucceeded, .settle 0 .resolved,
         .message (.userJoined (some "b")), .settle 0 (.description "o"), .settle 0 .resolved,
         .settle 0 .resolved, .message (.answer "ans" (some "b")), .settle 0 .resolved,
         .message (.answer "ans2" (some "b"))]).map
        (fun r => (r.1.tasks, r.2.getLast?))
      = some ([Pending.answerSetRemote 0 "ans2"], some (Effect.pcSetRemoteDescription 0 "ans2"))
    ∧ ((Room.init (some "r")).run
        [.effect "a", .settle 0 (.stream ⟨0, []⟩), .subscriptionSucceeded, .settle 0 .resolved,
         .message (.userJoined (some "b")), .settle 0 (.description "o"), .settle 0 .resolved,
         .settle 0 .resolved, .message (.answer "ans" (some "b")), .settle 0 .resolved,
         .message (.answer "ans2" (some "b")), .settle 0 .resolved]).map
        (fun r => r.1.pcs)
      = some
        [{ closed := false, senders := [], localDescription := some "o",
           remoteDescription := some "ans2", candidates := [] }] := by
  refine ⟨?_, ?_, ?_⟩ <;> rfl

/-- C10, amended: an Answer from another participant is handed to the referenced transport
session (`setRemoteDescription` is called on it) whenever a transport session is
referenced, whatever descriptions that session has: in OfferSent, and equally in
OfferReceived or Stable.  When the transport accepts it, it becomes the applied remote
description of that session, so from OfferSent the controller reaches Stable.  Only when no
transport session is referenced (Idle) is the Answer not applied: the state is unchanged
and no call is made. -/
theorem answer_applied_whenever_session (s : Room) (answer : SessionDescription)
    (senderId : Option ParticipantId) (h : senderId ≠ s.userIdRef) :
    (s.peerConnectionRef = none → handleAnswer s answer senderId = (s, []))
    ∧ (∀ pc, s.peerConnectionRef = some pc →
        handleAnswer s answer senderId
          = ({ s with tasks := s.tasks ++ [Pending.answerSetRemote pc answer] },
             [Effect.pcSetRemoteDescription pc answer])
        ∧ settle (handleAnswer s answer senderId).1 s.tasks.length Outcome.resolved
          = some ({ s with
                    pcs := s.pcs.modify (fun p => { p with remoteDescription := some answer }) pc },
                  [])
        ∧ ∀ p, s.pcs[pc]? = some p →
            (s.pcs.modify (fun p => { p with remoteDescription := some answer }) pc)[pc]?
              = some { p with remoteDescription := some answer }) := by
  refine ⟨?_, ?_⟩
  · intro hr
    simp [handleAnswer, h, hr]
  · intro pc hr
    refine ⟨by simp [handleAnswer, h, hr], ?_, ?_⟩
    · simp [handleAnswer, h, hr, settle, acceptRemote, List.eraseIdx_append_of_length_le]
    · intro p hp
      simp [List.getElem?_modify, hp]

/-- An Answer arriving in Stable is handed to the transport session. -/
theorem answer_applied_whenever_session_witness :
    handleAnswer
        { Room.init (some "r") with
          userIdRef := some "a", peerConnectionRef := some 0,
          pcs := [{ closed := false, senders := [], localDescription := some "o",
                    remoteDescription := some "ans", candidates := [] }] }
        "ans2" (some "b")
      = ({ Room.init (some "r") with
           userIdRef := some "a", peerConnectionRef := some 0,
           pcs := [{ closed := false, senders := [], localDescription := some "o",
                     remoteDescription := some "ans", candidates := [] }],
           tasks := [Pending.answerSetRemote 0 "ans2"] },
         [Effect.pcSetRemoteDescription 0 "ans2"]) :=
  ((answer_applied_whenever_session
    { Room.init (some "r") with
      userIdRef := some "a", peerConnectionRef := some 0,
      pcs := [{ closed := false, senders := [], localDescription := some "o",
                remoteDescription := some "ans", candidates := [] }] }
    "ans2" (some "b") (by decide)).2 0 rfl).1

/-! ## Writes to the reported status -/

/-- What a handler can do to the reported status and the connected flag: leave both, set
Connected with the flag, set Disconnected without the flag, or set another status and leave
the flag. -/
theorem statusStep_writes (s : Room) (e : StatusEvent) :
    ((statusStep s e).connectionStatus = s.connectionStatus
        ∧ (statusStep s e).isConnected = s.isConnected)
    ∨ ((statusStep s e).connectionStatus = "Connected" ∧ (statusStep s e).isConnected = true)
    ∨ ((statusStep s e).connectionStatus = "Disconnected"
        ∧ (statusStep s e).isConnected = false)
    ∨ ((statusStep s e).connectionStatus ≠ "Connected"
        ∧ (statusStep s e).connectionStatus ≠ "Disconnected"
        ∧ (statusStep s e).isConnected = s.isConnected) := by
  cases e with
  | track streams =>
    simp only [statusStep, ontrack]
    split <;> simp
  | connectionstatechange st =>
    simp only [statusStep, onconnectionstatechange]
    split_ifs <;> simp
  | mediaResolved st => simp [statusStep, initMediaResolved]
  | mediaRejected => simp [statusStep, initMediaRejected]
  | toggleMute =>
    simp only [statusStep, toggleMute]
    split
    · split <;> simp
    · simp
  | toggleVideo =>
    simp only [statusStep, toggleVideo]
    split
    · split <;> simp
    · simp

/-- The teardown writes neither the reported status nor the connected flag. -/
theorem cleanup_status (s : Room) :
    (cleanup s).1.connectionStatus = s.connectionStatus
      ∧ (cleanup s).1.isConnected = s.isConnected := by
  obtain ⟨mounted, roomId, isConnected, isMuted, isVideoOff, connectionStatus, localVideoRef,
    remoteVideoRef, peerConnectionRef, localStreamRef, pusherRef, channelRef, userIdRef, pcs,
    tasks, orphanPushers, orphanChannels⟩ := s
  cases localStreamRef <;> cases peerConnectionRef <;> cases channelRef <;> cases pusherRef <;>
    simp [cleanup]

/-- A resumed continuation leaves the status and the flag, or sets a status that is neither
Connected nor Disconnected and leaves the flag. -/
theorem settle_writes (s : Room) (i : Nat) (o : Outcome) (r : Room × List Effect)
    (h : settle s i o = some r) :
    (r.1.connectionStatus = s.connectionStatus ∧ r.1.isConnected = s.isConnected)
    ∨ (r.1.connectionStatus ≠ "Connected" ∧ r.1.connectionStatus ≠ "Disconnected"
        ∧ r.1.isConnected = s.isConnected) := by
  unfold settle at h
  cases hget : s.tasks[i]? with
  | none => simp [hget] at h
  | some t =>
    cases t <;> cases o <;>
      simp [hget, resumeOnCurrent, triggerEvent, initPusher, initMediaResolved,
        initMediaRejected, acceptLocal, acceptRemote, acceptCandidate] at h <;>
      subst h <;> (try cases s.peerConnectionRef) <;> simp

/-- What the code run by an event can do to the reported status and the connected flag. -/
theorem handle_writes (s : Room) (e : Event) (r : Room × List Effect)
    (h : s.handle e = some r) :
    (r.1.connectionStatus = s.connectionStatus ∧ r.1.isConnected = s.isConnected)
    ∨ (r.1.connectionStatus = "Connected" ∧ r.1.isConnected = true)
    ∨ (r.1.connectionStatus = "Disconnected" ∧ r.1.isConnected = false)
    ∨ (r.1.connectionStatus ≠ "Connected" ∧ r.1.connectionStatus ≠ "Disconnected"
        ∧ r.1.isConnected = s.isConnected) := by
  have hmsg : ∀ m, (onMessage s m).1.connectionStatus = s.connectionStatus
      ∧ (onMessage s m).1.isConnected = s.isConnected := by
    intro m
    cases m <;>
      simp only [onMessage, onUserJoined, handleOffer, handleAnswer, handleIceCandidate,
        startCall, createPeerConnection] <;>
      split <;> (try split) <;> simp
  have hemit : ∀ ch m, (emitMessage s ch m).1.connectionStatus = s.connectionStatus
      ∧ (emitMessage s ch m).1.isConnected = s.isConnected := by
    intro ch m
    unfold emitMessage
    split
    · exact hmsg m
    · exact ⟨rfl, rfl⟩
  have hsub : ∀ ch, (emitSubscriptionSucceeded s ch).1.connectionStatus = s.connectionStatus
      ∧ (emitSubscriptionSucceeded s ch).1.isConnected = s.isConnected := by
    intro ch
    unfold emitSubscriptionSucceeded
    split <;> simp [onSubscriptionSucceeded, triggerEvent]
  cases e with
  | effect randomId =>
    simp only [Room.handle, Option.some.injEq] at h
    subst h
    simp only [roomEffect]
    split <;> simp
  | cleanup =>
    simp only [Room.handle, Option.some.injEq] at h
    subst h
    exact Or.inl (cleanup_status s)
  | unmount =>
    simp only [Room.handle, Option.some.injEq] at h
    subst h
    exact Or.inl (cleanup_status _)
  | settle i o =>
    rcases settle_writes s i o r h with h1 | h1
    · exact Or.inl h1
    · exact Or.inr (Or.inr (Or.inr h1))
  | subscriptionSucceeded =>
    simp only [Room.handle] at h
    cases hc : s.channelRef <;> simp only [hc, Option.some.injEq] at h <;> subst h
    · exact Or.inl ⟨rfl, rfl⟩
    · exact Or.inl (hsub _)
  | message m =>
    simp only [Room.handle] at h
    cases hc : s.channelRef <;> simp only [hc, Option.some.injEq] at h <;> subst h
    · exact Or.inl ⟨rfl, rfl⟩
    · exact Or.inl (hemit _ m)
  | orphanSubscriptionSucceeded i =>
    simp only [Room.handle] at h
    cases hc : s.orphanChannels[i]? <;> simp only [hc, Option.some.injEq] at h
    · exact absurd h (by simp)
    · subst h
      exact Or.inl (hsub _)
  | orphanMessage i m =>
    simp only [Room.handle] at h
    cases hc : s.orphanChannels[i]? <;> simp only [hc, Option.some.injEq] at h
    · exact absurd h (by simp)
    · subst h
      exact Or.inl (hemit _ m)
  | icecandidate candidate =>
    simp only [Room.handle, Option.some.injEq] at h
    subst h
    cases candidate <;> simp [onicecandidate, triggerEvent]
  | track streams =>
    simp only [Room.handle, Option.some.injEq] at h
    subst h
    exact statusStep_writes s (StatusEvent.track streams)
  | connectionstatechange st =>
    simp only [Room.handle, Option.some.injEq] at h
    subst h
    exact statusStep_writes s (StatusEvent.connectionstatechange st)
  | toggleMute =>
    simp only [Room.handle, Option.some.injEq] at h
    subst h
    exact statusStep_writes s StatusEvent.toggleMute
  | toggleVideo =>
    simp only [Room.handle, Option.some.injEq] at h
    subst h
    exact statusStep_writes s StatusEvent.toggleVideo
  | endCall =>
    simp only [Room.handle, Option.some.injEq] at h
    subst h
    simp [endCall]

/-- What one turn of the event loop can do to the reported status and the connected flag. -/
theorem step_writes (s : Room) (e : Event) (r : Room × List Effect) (h : s.step e = some r) :
    (r.1.connectionStatus = s.connectionStatus ∧ r.1.isConnected = s.isConnected)
    ∨ (r.1.connectionStatus = "Connected" ∧ r.1.isConnected = true)
    ∨ (r.1.connectionStatus = "Disconnected" ∧ r.1.isConnected = false)
    ∨ (r.1.connectionStatus ≠ "Connected" ∧ r.1.connectionStatus ≠ "Disconnected"
        ∧ r.1.isConnected = s.isConnected) := by
  unfold Room.step at h
  cases hh : s.handle e with
  | none => simp [hh] at h
  | some r0 =>
    simp only [hh, Option.some.injEq] at h
    subst h
    unfold dropSetters
    by_cases hm : s.mounted = true
    · simp only [hm, if_true]
      exact handle_writes s e r0 hh
    · simp only [hm]
      exact Or.inl ⟨rfl, rfl⟩

/-- The consistency of status and flag survives any of the four kinds of write. -/
theorem consistent_of_writes (status status1 : String) (flag flag1 : Bool)
    (hinv : (status = "Connected" → flag = true) ∧ (status = "Disconnected" → flag = false))
    (hw : (status1 = status ∧ flag1 = flag)
      ∨ (status1 = "Connected" ∧ flag1 = true)
      ∨ (status1 = "Disconnected" ∧ flag1 = false)
      ∨ (status1 ≠ "Connected" ∧ status1 ≠ "Disconnected" ∧ flag1 = flag)) :
    (status1 = "Connected" → flag1 = true) ∧ (status1 = "Disconnected" → flag1 = false) := by
  rcases hw with ⟨h1, h2⟩ | ⟨h1, h2⟩ | ⟨h1, h2⟩ | ⟨h1, h2, _⟩
  · subst h1 h2
    exact hinv
  · subst h1 h2
    exact ⟨fun _ => rfl, fun h => absurd h (by decide)⟩
  · subst h1 h2
    exact ⟨fun h => absurd h (by decide), fun _ => rfl⟩
  · exact ⟨fun h => absurd h h1, fun h => absurd h h2⟩

/-- The consistency of status and flag is kept along a sequence of status events. -/
theorem statusRun_consistent (events : List StatusEvent) (s : Room)
    (hinv : (s.connectionStatus = "Connected" → s.isConnected = true)
      ∧ (s.connectionStatus = "Disconnected" → s.isConnected = false)) :
    ((statusRun s events).connectionStatus = "Connected" →
        (statusRun s events).isConnected = true)
    ∧ ((statusRun s events).connectionStatus = "Disconnected" →
        (statusRun s events).isConnected = false) := by
  induction events generalizing s with
  | nil => exact hinv
  | cons e es ih =>
    exact ih (statusStep s e) (consistent_of_writes _ _ _ _ hinv (statusStep_writes s e))

/-- The consistency of status and flag is kept along a run of the event loop. -/
theorem run_consistent (events : List Event) (s : Room) (r : Room × List Effect)
    (hinv : (s.connectionStatus = "Connected" → s.isConnected = true)
      ∧ (s.connectionStatus = "Disconnected" → s.isConnected = false))
    (hrun : s.run events = some r) :
    (r.1.connectionStatus = "Connected" → r.1.isConnected = true)
    ∧ (r.1.connectionStatus = "Disconnected" → r.1.isConnected = false) := by
  induction events generalizing s r with
  | nil =>
    simp only [Room.run, Option.some.injEq] at hrun
    subst hrun
    exact hinv
  | cons e es ih =>
    simp only [Room.run] at hrun
    cases hstep : s.step e with
    | none => simp [hstep] at hrun
    | some r1 =>
      cases hrest : r1.1.run es with
      | none => simp [hstep, hrest] at hrun
      | some r2 =>
        simp only [hstep, hrest, Option.some.injEq] at hrun
        subst hrun
        exact ih r1.1 r2 (consistent_of_writes _ _ _ _ hinv (step_writes s e r1 hstep)) hrest

/-! ## Status and connected flag -/

/-- C11: from any initial state with status `Connecting...` and isConnected false, after any
finite sequence of remote-track events, transport connection-state changes, media-acquisition
outcomes and mute/video toggles, a reported status `Connected` comes with isConnected true
and a reported status `Disconnected` with isConnected false.  The same holds after any run
of the whole event loop (messages, resumed handlers, teardown included). -/
theorem status_flag_consistent (s0 : Room) (hstatus : s0.connectionStatus = "Connecting...")
    (hflag : s0.isConnected = false) :
    (∀ events : List StatusEvent,
      ((statusRun s0 events).connectionStatus = "Connected" →
          (statusRun s0 events).isConnected = true)
      ∧ ((statusRun s0 events).connectionStatus = "Disconnected" →
          (statusRun s0 events).isConnected = false))
    ∧ (∀ (events : List Event) (r : Room × List Effect), s0.run events = some r →
      (r.1.connectionStatus = "Connected" → r.1.isConnected = true)
      ∧ (r.1.connectionStatus = "Disconnected" → r.1.isConnected = false)) := by
  have hinv : (s0.connectionStatus = "Connected" → s0.isConnected = true)
      ∧ (s0.connectionStatus = "Disconnected" → s0.isConnected = false) := by
    rw [hstatus]
    exact ⟨fun h => absurd h (by decide), fun _ => hflag⟩
  exact ⟨fun events => statusRun_consistent events s0 hinv,
    fun events r hrun => run_consistent events s0 r hinv hrun⟩

/-- After a remote track and then a transport failure the status is `Disconnected` and the
flag is off. -/
theorem status_flag_consistent_witness :
    (Room.init (some "r")).connectionStatus = "Connecting..."
      ∧ (Room.init (some "r")).isConnected = false
      ∧ (statusRun (Room.init (some "r"))
          [.mediaResolved ⟨0, []⟩, .track [7], .toggleMute,
           .connectionstatechange "failed"]).connectionStatus = "Disconnected"
      ∧ (statusRun (Room.init (some "r"))
          [.mediaResolved ⟨0, []⟩, .track [7], .toggleMute,
           .connectionstatechange "failed"]).isConnected = false :=
  ⟨rfl, rfl, rfl,
   ((status_flag_consistent (Room.init (some "r")) rfl rfl).1
      [.mediaResolved ⟨0, []⟩, .track [7], .toggleMute,
       .connectionstatechange "failed"]).2 rfl⟩

end VideoCall

namespace PusherAuth

/-! ## Authorization endpoint -/

/-- C9, refuted as stated: a POST whose body is `null` (a JSON body `null`).  The handler
throws while reading `socket_id` and `channel_name`, before the `try`: the authorizer is not
called and the handler sends no response. -/
theorem post_without_body_sends_no_response :
    handler (fun _ _ => Except.ok "credential") { method := "POST", body := none }
      = { authorizerCalls := [], responses := [], logged := [], threw := true } := by
  rfl

/-- C9, amended to requests whose body is not null: when the method is not POST the handler
responds 405 with an error body and does not call the authorizer; for a POST it calls the
authorizer once, with the socket_id and channel_name of the body, responds 200 with exactly
the returned credential when the authorizer succeeds, and responds 403 if and only if the
authorizer throws; in all these cases exactly one response is sent and the handler does not
throw. -/
theorem handler_responses
    (authorizeChannel : Option String → Option String → Except String String)
    (req : Request) :
    (req.method ≠ "POST" →
      handler authorizeChannel req
        = { authorizerCalls := [], responses := [(405, Json.error "Method not allowed")],
            logged := [], threw := false })
    ∧ (∀ body, req.method = "POST" → req.body = some body →
        (handler authorizeChannel req).authorizerCalls
          = [(body.socket_id, body.channel_name)]
        ∧ (∀ credential, authorizeChannel body.socket_id body.channel_name
              = Except.ok credential →
            (handler authorizeChannel req).responses = [(200, Json.credential credential)])
        ∧ ((∃ e, authorizeChannel body.socket_id body.channel_name = Except.error e)
            ↔ (handler authorizeChannel req).responses = [(403, Json.error "Forbidden")])
        ∧ ((∃ e, authorizeChannel body.socket_id body.channel_name = Except.error e)
            ↔ ∃ r ∈ (handler authorizeChannel req).responses, r.1 = 403))
    ∧ ((req.method ≠ "POST" ∨ req.body ≠ none) →
        (handler authorizeChannel req).responses.length = 1
        ∧ (handler authorizeChannel req).threw = false) := by
  refine ⟨?_, ?_, ?_⟩
  · intro h
    simp [handler, h]
  · intro body hm hb
    cases ha : authorizeChannel body.socket_id body.channel_name <;>
      simp [handler, hm, hb, ha]
  · intro h
    by_cases hm : req.method = "POST"
    · cases hb : req.body with
      | none => simp [hm, hb] at h
      | some body =>
        cases ha : authorizeChannel body.socket_id body.channel_name <;>
          simp [handler, hm, hb, ha]
    · simp [handler, hm]

/-- A GET is answered 405, an authorized POST 200 with the credential. -/
theorem handler_responses_witness :
    handler (fun _ _ => Except.error "invalid socket id")
        { method := "GET", body := some ⟨some "1.2", some "private-room-r"⟩ }
      = { authorizerCalls := [], responses := [(405, Json.error "Method not allowed")],
          logged := [], threw := false }
    ∧ (handler (fun _ _ => Except.ok "credential")
        { method := "POST", body := some ⟨some "1.2", some "private-room-r"⟩ }).responses
      = [(200, Json.credential "credential")] :=
  ⟨(handler_responses _ { method := "GET", body := some ⟨some "1.2", some "private-room-r"⟩ }).1
     (by decide),
   ((handler_responses (fun _ _ => Except.ok "credential")
      { method := "POST", body := some ⟨some "1.2", some "private-room-r"⟩ }).2.1
      ⟨some "1.2", some "private-room-r"⟩ rfl rfl).2.1 "credential" rfl⟩

end PusherAuth
